import Mathlib

/-!
Shallow embedding of the request/retry/authentication/error-classification
pipeline of the dokan-go-sdk repository.

Sources embedded:
- `src/utils/utils.go`: `MakeRequest` (error-handling tail), `StructToURLValues`,
  `isEmptyValue`, `fieldToString`, `RetryConfig`, `WithRetry`.
- the `errors` package (its source appears verbatim inside
  `src/docs/technical_documentation.md`): `DokanError`, `IsDokanError`,
  `HandleHTTPError` and the concrete error types.
- the `auth` package (its source appears verbatim inside `src/README.md`):
  `BasicAuth.Authenticate`, `BasicAuth.IsValid`, `JWTAuth.IsValid`,
  `JWTAuth.Authenticate`.
- `src/unnamed/part_003` (package `client`): `Client.MakeRequest`,
  `authenticatedClient.Do`.

Modelling conventions:
- Go `error` values are the inductive `GoErr`; each Go error type of the SDK is
  one constructor.  `fmt.Errorf("...: %w", err)` wrapping is the `wrapped`
  constructor; other `fmt.Errorf` / plain errors are `goErr`.
- `time.Duration` values are exact rationals (the Go code computes the backoff
  delay in `float64` and truncates back to integer nanoseconds; for the delay
  formula we use exact rational arithmetic, abstracting float rounding).
- `time.Time` is an integer instant (nanoseconds); the zero `time.Time` is
  `Option.none` for an expiry.
- The `context.Context` passed to `WithRetry` is modelled by a function
  `ctxDone : Nat -> Bool` telling, for the backoff wait preceding retry
  attempt `n`, whether the cancellation branch of the `select` wins, together
  with the error value `ctxErr` that `ctx.Err()` returns.  The unit of work
  `fn` is modelled as `Nat -> Option GoErr` giving the outcome of its k-th
  invocation (`none` = success).
-/

/-- Go `error` values occurring in the SDK.  Constructors mirror the concrete
error types of the `errors` package plus generic `fmt.Errorf` errors. -/
inductive GoErr where
  /-- `*errors.DokanError` with fields Code, Message, StatusCode. -/
  | dokanErr (code message : String) (statusCode : Int)
  /-- `*errors.NetworkError` wrapping a cause. -/
  | networkErr (cause : GoErr)
  /-- `*errors.AuthenticationError`. -/
  | authenticationErr (message : String)
  /-- `*errors.NotFoundError`. -/
  | notFoundErr (resource id : String)
  /-- `*errors.RateLimitError`. -/
  | rateLimitErr (retryAfter : Int)
  /-- `*errors.ValidationError`. -/
  | validationErr (field code message : String)
  /-- an error created by `fmt.Errorf` without wrapping. -/
  | goErr (message : String)
  /-- an error created by `fmt.Errorf("...: %w", inner)`. -/
  | wrapped (message : String) (inner : GoErr)
deriving DecidableEq, Repr

/-- `errors.IsDokanError`: a Go type assertion to `*DokanError`; true only for
the `dokanErr` constructor, it does not unwrap wrapped errors. -/
def IsDokanError : GoErr → Bool
  | .dokanErr _ _ _ => true
  | _ => false

/-- `errors.HandleHTTPError(statusCode, body)`: the fallback classification of
an HTTP status code.  The `body` argument is ignored by the source, so it is
omitted here.  Returns `none` where Go returns `nil`. -/
def HandleHTTPError (statusCode : Int) : Option GoErr :=
  if statusCode = 401 then some (.authenticationErr "unauthorized access")
  else if statusCode = 403 then some (.authenticationErr "forbidden access")
  else if statusCode = 404 then some (.notFoundErr "resource" "unknown")
  else if statusCode = 429 then some (.rateLimitErr 60)
  else if statusCode = 400 then some (.dokanErr "bad_request" "bad request" statusCode)
  else if statusCode = 500 then
    some (.dokanErr "internal_error" "internal server error" statusCode)
  else if 400 ≤ statusCode then
    some (.dokanErr "http_error" ("HTTP " ++ toString statusCode ++ " error") statusCode)
  else none

/-- The structured error payload `{"code":..., "message":...}` that
`utils.MakeRequest` tries to `json.Unmarshal` from an error response body
(the fields of `errors.DokanError` that JSON can populate). -/
structure DokanPayload where
  code : String
  message : String
deriving DecidableEq, Repr

/-- The error-classification tail of `utils.MakeRequest` (utils.go lines
104-117): for a response with the given status code whose body parsed as
`parsed` (`none` = `json.Unmarshal` failed), the error value returned.
A parsed payload with non-empty `Code` wins; otherwise `HandleHTTPError`. -/
def makeRequestClassify (statusCode : Int) (parsed : Option DokanPayload) : Option GoErr :=
  if 400 ≤ statusCode then
    match parsed with
    | some p =>
        if p.code ≠ "" then some (.dokanErr p.code p.message statusCode)
        else HandleHTTPError statusCode
    | none => HandleHTTPError statusCode
  else none

/-- Outcome of the HTTP exchange attempted by `utils.MakeRequest` once the
request reaches `client.Do`: either a transport failure or a response, the
response carrying its status and the parse attempt of its body. -/
inductive NetOutcome where
  | transportFailure (message : String)
  | response (statusCode : Int) (parsed : Option DokanPayload)
deriving DecidableEq, Repr

/-- Result of one `utils.MakeRequest` call through the `authenticatedClient`:
whether the underlying transport (`ac.client.Do`) was reached, and the error
returned (`none` = success). -/
structure AttemptOutcome where
  networkCalled : Bool
  error : Option GoErr
deriving DecidableEq, Repr

/-- One `utils.MakeRequest` call through `authenticatedClient.Do`
(part_003 lines 346-354 composed with utils.go lines 85-89):
`authenticatedClient.Do` first runs `ac.auth.Authenticate(req)`; on failure it
returns `fmt.Errorf("authentication failed: %w", err)` without calling
`ac.client.Do` (no network I/O).  `utils.MakeRequest` wraps any error from
`client.Do` as `errors.NewNetworkError(err)`.  A reached transport either
fails (also wrapped as a network error) or yields a response classified by
`makeRequestClassify`. -/
def MakeRequestModel (authResult : Option GoErr) (net : NetOutcome) : AttemptOutcome :=
  match authResult with
  | some e => ⟨false, some (.networkErr (.wrapped "authentication failed" e))⟩
  | none =>
      match net with
      | .transportFailure msg => ⟨true, some (.networkErr (.goErr msg))⟩
      | .response s p => ⟨true, makeRequestClassify s p⟩

/-- `utils.RetryConfig`.  Durations are exact rationals (abstract time units);
`Multiplier` (a Go `float64`) is likewise a rational. -/
structure RetryConfig where
  maxRetries : Nat
  baseDelay : ℚ
  maxDelay : ℚ
  multiplier : ℚ
deriving DecidableEq, Repr

/-- The backoff delay computed inside `utils.WithRetry` before retry attempt
`attempt` (utils.go lines 296-300):
`delay := BaseDelay * attempt * Multiplier; if delay > MaxDelay { delay = MaxDelay }`. -/
def retryDelay (config : RetryConfig) (attempt : Nat) : ℚ :=
  let delay := config.baseDelay * (attempt : ℚ) * config.multiplier
  if delay > config.maxDelay then config.maxDelay else delay

/-- The non-retry test inside `utils.WithRetry` (utils.go lines 315-322): the
loop returns early exactly when the error is a `*DokanError` whose status is
in `[400, 500)` and is not `429`. -/
def nonRetryable : GoErr → Bool
  | .dokanErr _ _ s => decide (400 ≤ s) && decide (s < 500) && decide (s ≠ 429)
  | _ => false

/-- Trace of one `utils.WithRetry` run: how many times the unit of work was
invoked, the backoff delays that were completed, and the returned error
(`none` = success). -/
structure RetryTrace where
  attempts : Nat
  delays : List ℚ
  result : Option GoErr
deriving DecidableEq, Repr

/-- The loop body of `utils.WithRetry` (utils.go lines 294-323), by recursion
on the remaining loop iterations (`fuel`).  `attempt` is the Go loop index
(also the number of invocations of `fn` so far), `delays` the completed waits,
`lastErr` the error of the previous invocation.  For `attempt > 0` the
`select` first either observes cancellation (`ctxDone attempt`, returning
`ctx.Err()` = `ctxErr`) or completes the wait of `retryDelay config attempt`. -/
def withRetryLoop (ctxDone : Nat → Bool) (ctxErr : GoErr) (config : RetryConfig)
    (fn : Nat → Option GoErr) :
    Nat → Nat → List ℚ → Option GoErr → RetryTrace
  | 0, attempt, delays, lastErr => ⟨attempt, delays, lastErr⟩
  | fuel + 1, attempt, delays, _lastErr =>
      if attempt > 0 && ctxDone attempt then
        ⟨attempt, delays, some ctxErr⟩
      else
        let ds := if attempt > 0 then delays ++ [retryDelay config attempt] else delays
        match fn attempt with
        | none => ⟨attempt + 1, ds, none⟩
        | some err =>
            if nonRetryable err then ⟨attempt + 1, ds, some err⟩
            else withRetryLoop ctxDone ctxErr config fn fuel (attempt + 1) ds (some err)

/-- `utils.WithRetry(ctx, config, fn)`: the Go loop
`for attempt := 0; attempt <= config.MaxRetries; attempt++` runs at most
`MaxRetries + 1` iterations starting at `attempt = 0` with no prior error. -/
def WithRetry (ctxDone : Nat → Bool) (ctxErr : GoErr) (config : RetryConfig)
    (fn : Nat → Option GoErr) : RetryTrace :=
  withRetryLoop ctxDone ctxErr config fn (config.maxRetries + 1) 0 [] none

/-- `auth.BasicAuth.Authenticate` (README): fails (before touching the
request) when username or password is empty, else succeeds. -/
def basicAuthAuthenticate (username password : String) : Option GoErr :=
  if username = "" || password = "" then
    some (.goErr "username and password are required for basic auth")
  else none

/-- `auth.BasicAuth.IsValid` (README). -/
def basicAuthIsValid (username password : String) : Bool :=
  username ≠ "" && password ≠ ""

/-- Five minutes in nanoseconds (`5 * time.Minute`). -/
def fiveMinutesNs : Int := 5 * 60 * 1000000000

/-- `auth.JWTAuth.IsValid` (README): false for an empty token; true when no
expiry is set (`expiresAt.IsZero()`, modelled as `none`); otherwise
`time.Now().Add(5 * time.Minute).Before(j.expiresAt)`, i.e. strictly
`now + 5min < expiresAt`.  `now` and `expiresAt` are instants in
nanoseconds. -/
def jwtIsValid (token : String) (expiresAt : Option Int) (now : Int) : Bool :=
  if token = "" then false
  else
    match expiresAt with
    | none => true
    | some t => decide (now + fiveMinutesNs < t)

/-- `auth.JWTAuth.Authenticate` (README) for an authenticator without a
refresh function (as built by `auth.NewAuthenticator`): fails for an empty
token, then fails when the token is not valid (it "is expired and cannot be
refreshed"), else succeeds. -/
def jwtAuthenticateNoRefresh (token : String) (expiresAt : Option Int) (now : Int) :
    Option GoErr :=
  if token = "" then some (.goErr "JWT token is required")
  else if jwtIsValid token expiresAt now then none
  else some (.goErr "JWT token is expired and cannot be refreshed")

/-- A Go value stored in a struct field, as `utils.StructToURLValues` sees it
through `reflect`.  `structV` is a (possibly embedded) struct-typed field,
carrying its own fields as tag/value pairs. -/
inductive GoFieldValue where
  | stringV (s : String)
  | boolV (b : Bool)
  | intV (i : Int)
  | intSlice (xs : List Int)
  | stringSlice (xs : List String)
  | ptrNil
  | ptrInt (i : Int)
  | ptrBool (b : Bool)
  | structV (fields : List (String × GoFieldValue))

/-- `utils.isEmptyValue` (utils.go lines 183-199): length-0 for
strings/slices, `!b` for bools, `0` for ints, `IsNil` for pointers; a struct
kind falls through to `false`. -/
def isEmptyValue : GoFieldValue → Bool
  | .stringV s => s = ""
  | .boolV b => !b
  | .intV i => i = 0
  | .intSlice xs => xs.isEmpty
  | .stringSlice xs => xs.isEmpty
  | .ptrNil => true
  | .ptrInt _ => false
  | .ptrBool _ => false
  | .structV _ => false

/-- `utils.fieldToString` (utils.go lines 202-253): strings verbatim, bools
via `strconv.FormatBool`, ints via `strconv.FormatInt(_, 10)`, slices of
strings/ints joined with commas, nil pointers to `""`, non-nil pointers
dereferenced; a struct-typed value hits the default case and fails with
"unsupported type". -/
def fieldToString : GoFieldValue → Except String String
  | .stringV s => .ok s
  | .boolV b => .ok (if b then "true" else "false")
  | .intV i => .ok (toString i)
  | .intSlice xs => .ok (String.intercalate "," (xs.map toString))
  | .stringSlice xs => .ok (String.intercalate "," xs)
  | .ptrNil => .ok ""
  | .ptrInt i => .ok (toString i)
  | .ptrBool b => .ok (if b then "true" else "false")
  | .structV _ => .error "unsupported type"

/-- `strings.Split(s, ",")` for the single-character separator used by
`utils.StructToURLValues`, implemented structurally over the characters
(splits at every comma, keeping empty parts, as Go does). -/
def splitCommaAux : List Char → List Char → List String
  | [], acc => [String.mk acc.reverse]
  | c :: cs, acc =>
      if c = ',' then String.mk acc.reverse :: splitCommaAux cs []
      else splitCommaAux cs (c :: acc)

/-- `strings.Split(s, ",")`. -/
def splitComma (s : String) : List String := splitCommaAux s.data []

/-- `utils.StructToURLValues` (utils.go lines 121-180) over the top-level
fields of a struct, each given as its `url` tag (the raw tag string, `""`
when absent — in particular for an embedded anonymous field) and its value.
Fields with tag `""` or `"-"` are skipped; the tag is split on `,`, the first
part being the parameter name and `omitempty` among the rest enabling the
empty-value skip; `fieldToString` failure aborts the whole call; an empty
stringified value is not added.  The result keeps field order. -/
def StructToURLValues : List (String × GoFieldValue) → Except String (List (String × String))
  | [] => .ok []
  | (tag, v) :: rest =>
      if tag = "" || tag = "-" then StructToURLValues rest
      else
        let name := (splitComma tag).headD ""
        let omitEmpty := ((splitComma tag).drop 1).contains "omitempty"
        if omitEmpty && isEmptyValue v then StructToURLValues rest
        else
          match fieldToString v with
          | .error e => .error e
          | .ok s =>
              match StructToURLValues rest with
              | .error e => .error e
              | .ok vals => .ok (if s = "" then vals else (name, s) :: vals)

/-- The top-level fields of `types.ProductListParams` (orders.go lines
466-478) as `reflect` enumerates them: the embedded anonymous `ListParams`
field (no `url` tag of its own, holding the tagged `page`/`per_page`/
`search`/`orderby`/`order` fields inside), followed by the tagged fields,
here with every non-embedded field at its zero value. -/
def productListParamsFields (page perPage : Int) (search orderBy order : String) :
    List (String × GoFieldValue) :=
  [ ("", .structV
      [ ("page,omitempty", .intV page)
      , ("per_page,omitempty", .intV perPage)
      , ("search,omitempty", .stringV search)
      , ("orderby,omitempty", .stringV orderBy)
      , ("order,omitempty", .stringV order) ])
  , ("status,omitempty", .stringSlice [])
  , ("type,omitempty", .stringSlice [])
  , ("featured,omitempty", .ptrNil)
  , ("category,omitempty", .intSlice [])
  , ("tag,omitempty", .intSlice [])
  , ("min_price,omitempty", .ptrNil)
  , ("max_price,omitempty", .ptrNil)
  , ("stock_status,omitempty", .stringV "")
  , ("sku,omitempty", .stringV "") ]

/-! ## Helper lemmas about the retry loop -/

theorem withRetryLoop_zero (cd : Nat → Bool) (ce : GoErr) (cfg : RetryConfig)
    (fn : Nat → Option GoErr) (attempt : Nat) (ds : List ℚ) (le : Option GoErr) :
    withRetryLoop cd ce cfg fn 0 attempt ds le = ⟨attempt, ds, le⟩ := by
  simp [withRetryLoop]

/-- One iteration of the loop at a positive attempt index with no cancellation
and a retryably failing unit of work: wait, invoke, continue. -/
theorem withRetryLoop_succ_retry (cd : Nat → Bool) (ce : GoErr) (cfg : RetryConfig)
    (fn : Nat → Option GoErr) (fuel attempt : Nat) (ds : List ℚ) (le : Option GoErr)
    (e : GoErr) (h1 : 1 ≤ attempt) (hcd : cd attempt = false)
    (hfn : fn attempt = some e) (hr : nonRetryable e = false) :
    withRetryLoop cd ce cfg fn (fuel + 1) attempt ds le =
      withRetryLoop cd ce cfg fn fuel (attempt + 1)
        (ds ++ [retryDelay cfg attempt]) (some e) := by
  have hpos : attempt > 0 := h1
  simp [withRetryLoop, hpos, hcd, hfn, hr]

/-- Cancellation observed at the wait: immediate return of `ctx.Err()` with
the wait not completed. -/
theorem withRetryLoop_cancel (cd : Nat → Bool) (ce : GoErr) (cfg : RetryConfig)
    (fn : Nat → Option GoErr) (fuel attempt : Nat) (ds : List ℚ) (le : Option GoErr)
    (h1 : 1 ≤ attempt) (hcd : cd attempt = true) :
    withRetryLoop cd ce cfg fn (fuel + 1) attempt ds le = ⟨attempt, ds, some ce⟩ := by
  have hpos : attempt > 0 := h1
  simp [withRetryLoop, hpos, hcd]

/-- Running the loop from a positive attempt index while the unit of work
keeps failing retryably and cancellation never fires: all remaining
iterations run, each completing its backoff wait, and the loop ends with the
error of the last invocation (or `le` if no iteration remained). -/
theorem withRetryLoop_exhaust (cd : Nat → Bool) (ce : GoErr) (cfg : RetryConfig)
    (fn : Nat → Option GoErr) (errAt : Nat → GoErr)
    (hcd : ∀ k, cd k = false)
    (hfn : ∀ k, fn k = some (errAt k))
    (hr : ∀ k, nonRetryable (errAt k) = false) :
    ∀ fuel attempt, 1 ≤ attempt → ∀ (ds : List ℚ) (le : Option GoErr),
      withRetryLoop cd ce cfg fn fuel attempt ds le =
        ⟨attempt + fuel,
         ds ++ (List.range fuel).map (fun i => retryDelay cfg (attempt + i)),
         if fuel = 0 then le else some (errAt (attempt + fuel - 1))⟩ := by
  intro fuel
  induction fuel with
  | zero => intro attempt _ ds le; simp [withRetryLoop_zero]
  | succ f ih =>
      intro attempt h1 ds le
      rw [withRetryLoop_succ_retry cd ce cfg fn f attempt ds le (errAt attempt) h1
        (hcd attempt) (hfn attempt) (hr attempt)]
      rw [ih (attempt + 1) (by omega)]
      simp only [RetryTrace.mk.injEq]
      refine ⟨by omega, ?_, ?_⟩
      · rw [List.range_succ_eq_map, List.map_cons, List.map_map]
        have hfun : ((fun i => retryDelay cfg (attempt + i)) ∘ Nat.succ)
            = (fun i => retryDelay cfg (attempt + 1 + i)) := by
          funext i
          simp only [Function.comp_apply]
          congr 1
          omega
        rw [hfun]
        simp
      · have hne : f + 1 ≠ 0 := Nat.succ_ne_zero f
        rw [if_neg hne]
        rcases Nat.eq_zero_or_pos f with hf | hf
        · subst hf; simp
        · have hne2 : f ≠ 0 := by omega
          rw [if_neg hne2]
          have harith : attempt + 1 + f - 1 = attempt + (f + 1) - 1 := by omega
          rw [harith]

/-- A full `utils.WithRetry` run with cancellation never firing and a unit of
work failing retryably on every invocation: the work is invoked exactly
`MaxRetries + 1` times, one backoff wait completes before each retry, and the
error of the last invocation is returned. -/
theorem WithRetry_exhaust (cd : Nat → Bool) (ce : GoErr) (cfg : RetryConfig)
    (fn : Nat → Option GoErr) (errAt : Nat → GoErr)
    (hcd : ∀ k, cd k = false)
    (hfn : ∀ k, fn k = some (errAt k))
    (hr : ∀ k, nonRetryable (errAt k) = false) :
    WithRetry cd ce cfg fn =
      ⟨cfg.maxRetries + 1,
       (List.range cfg.maxRetries).map (fun i => retryDelay cfg (i + 1)),
       some (errAt cfg.maxRetries)⟩ := by
  unfold WithRetry
  have hstep : withRetryLoop cd ce cfg fn (cfg.maxRetries + 1) 0 [] none =
      withRetryLoop cd ce cfg fn cfg.maxRetries 1 [] (some (errAt 0)) := by
    simp [withRetryLoop, hfn 0, hr 0]
  rw [hstep, withRetryLoop_exhaust cd ce cfg fn errAt hcd hfn hr cfg.maxRetries 1 le_rfl]
  simp only [RetryTrace.mk.injEq]
  refine ⟨by omega, ?_, ?_⟩
  · simp only [List.nil_append]
    apply List.map_congr_left
    intro i _
    congr 1
    omega
  · rcases Nat.eq_zero_or_pos cfg.maxRetries with hm | hm
    · rw [hm]; simp
    · have hne : cfg.maxRetries ≠ 0 := by omega
      rw [if_neg hne]
      have harith : 1 + cfg.maxRetries - 1 = cfg.maxRetries := by omega
      rw [harith]

/-- With cancellation never firing, a loop iteration that still has fuel
invokes the unit of work at least once more. -/
theorem withRetryLoop_attempts_lower (cd : Nat → Bool) (ce : GoErr) (cfg : RetryConfig)
    (fn : Nat → Option GoErr) (hcd : ∀ k, cd k = false) :
    ∀ fuel attempt ds le, 1 ≤ fuel →
      attempt + 1 ≤ (withRetryLoop cd ce cfg fn fuel attempt ds le).attempts := by
  intro fuel
  induction fuel with
  | zero => intro _ _ _ h; omega
  | succ f ih =>
      intro attempt ds le _
      cases hf : fn attempt with
      | none => simp [withRetryLoop, hcd, hf]
      | some err =>
          by_cases hnr : nonRetryable err
          · simp [withRetryLoop, hcd, hf, hnr]
          · rcases Nat.eq_zero_or_pos f with h0 | h0
            · subst h0
              simp [withRetryLoop, hcd, hf, hnr]
            · simp only [withRetryLoop, hcd, Bool.and_false, Bool.false_eq_true,
                if_false, hf, hnr]
              exact le_trans (by omega : attempt + 1 ≤ attempt + 1 + 1)
                (ih (attempt + 1) _ (some err) h0)

/-- Running the loop from attempt index `attempt ≥ 1` with the unit of work
failing retryably and cancellation quiet until it fires at the wait preceding
attempt `attempt + m`: the first `m` waits complete, the work runs `m` more
times, and the loop then returns `ctx.Err()` without completing the last
wait. -/
theorem withRetryLoop_reach_cancel (cd : Nat → Bool) (ce : GoErr) (cfg : RetryConfig)
    (fn : Nat → Option GoErr) (errAt : Nat → GoErr) :
    ∀ m fuel attempt, 1 ≤ attempt → m + 1 ≤ fuel → cd (attempt + m) = true →
      (∀ k, attempt ≤ k → k < attempt + m → cd k = false) →
      (∀ k, attempt ≤ k → k < attempt + m → fn k = some (errAt k)) →
      (∀ k, attempt ≤ k → k < attempt + m → nonRetryable (errAt k) = false) →
      ∀ (ds : List ℚ) (le : Option GoErr),
        withRetryLoop cd ce cfg fn fuel attempt ds le =
          ⟨attempt + m,
           ds ++ (List.range m).map (fun i => retryDelay cfg (attempt + i)),
           some ce⟩ := by
  intro m
  induction m with
  | zero =>
      intro fuel attempt h1 hfuel hcdm _ _ _ ds le
      obtain ⟨f, rfl⟩ : ∃ f, fuel = f + 1 := ⟨fuel - 1, by omega⟩
      rw [withRetryLoop_cancel cd ce cfg fn f attempt ds le h1 (by simpa using hcdm)]
      simp
  | succ n ih =>
      intro fuel attempt h1 hfuel hcdm hquiet hfn hr ds le
      obtain ⟨f, rfl⟩ : ∃ f, fuel = f + 1 := ⟨fuel - 1, by omega⟩
      rw [withRetryLoop_succ_retry cd ce cfg fn f attempt ds le (errAt attempt) h1
        (hquiet attempt le_rfl (by omega)) (hfn attempt le_rfl (by omega))
        (hr attempt le_rfl (by omega))]
      rw [ih f (attempt + 1) (by omega) (by omega) (by
            have : attempt + 1 + n = attempt + (n + 1) := by omega
            rw [this]; exact hcdm)
          (fun k hk1 hk2 => hquiet k (by omega) (by omega))
          (fun k hk1 hk2 => hfn k (by omega) (by omega))
          (fun k hk1 hk2 => hr k (by omega) (by omega))]
      simp only [RetryTrace.mk.injEq, and_true]
      refine ⟨by omega, ?_⟩
      rw [List.range_succ_eq_map, List.map_cons, List.map_map]
      have hfun : ((fun i => retryDelay cfg (attempt + i)) ∘ Nat.succ)
          = (fun i => retryDelay cfg (attempt + 1 + i)) := by
        funext i
        simp only [Function.comp_apply]
        congr 1
        omega
      rw [hfun]
      simp

/-! ## Claim theorems -/

/-- Helper: the fallback classifier returns no error below 400. -/
theorem HandleHTTPError_lt_400 (t : Int) (h : t < 400) : HandleHTTPError t = none := by
  unfold HandleHTTPError
  split_ifs <;> first | rfl | omega

/-- Helper: the fallback classifier's default branch. -/
theorem HandleHTTPError_default (t : Int) (h4 : 400 ≤ t)
    (h1 : t ≠ 401) (h3 : t ≠ 403) (h44 : t ≠ 404) (h29 : t ≠ 429)
    (h0 : t ≠ 400) (h5 : t ≠ 500) :
    HandleHTTPError t
      = some (.dokanErr "http_error" ("HTTP " ++ toString t ++ " error") t) := by
  unfold HandleHTTPError
  split_ifs <;> first | rfl | omega

/-- C3: for every HTTP status code `s` whose response body does not parse as
a structured payload with a non-empty code, `utils.MakeRequest` returns
exactly the fallback entry of `errors.HandleHTTPError`, whose table is:
401 ↦ AuthenticationError("unauthorized access"),
403 ↦ AuthenticationError("forbidden access"),
404 ↦ NotFoundError("resource", "unknown"), 429 ↦ RateLimitError(60),
400 ↦ DokanError("bad_request", "bad request", 400),
500 ↦ DokanError("internal_error", "internal server error", 500),
any other s ≥ 400 ↦ DokanError("http_error", "HTTP {s} error", s),
and s < 400 ↦ no error. -/
theorem makeRequestClassify_fallback_table (s : Int) (p : Option DokanPayload)
    (hp : ∀ q, p = some q → q.code = "") :
    makeRequestClassify s p = HandleHTTPError s ∧
    HandleHTTPError 401 = some (.authenticationErr "unauthorized access") ∧
    HandleHTTPError 403 = some (.authenticationErr "forbidden access") ∧
    HandleHTTPError 404 = some (.notFoundErr "resource" "unknown") ∧
    HandleHTTPError 429 = some (.rateLimitErr 60) ∧
    HandleHTTPError 400 = some (.dokanErr "bad_request" "bad request" 400) ∧
    HandleHTTPError 500 = some (.dokanErr "internal_error" "internal server error" 500) ∧
    (∀ t : Int, 400 ≤ t → t ≠ 401 → t ≠ 403 → t ≠ 404 → t ≠ 429 → t ≠ 400 → t ≠ 500 →
      HandleHTTPError t
        = some (.dokanErr "http_error" ("HTTP " ++ toString t ++ " error") t)) ∧
    (∀ t : Int, t < 400 → HandleHTTPError t = none) := by
  refine ⟨?_, rfl, rfl, rfl, rfl, rfl, rfl, HandleHTTPError_default, HandleHTTPError_lt_400⟩
  unfold makeRequestClassify
  cases p with
  | none =>
      by_cases hs : 400 ≤ s
      · simp [hs]
      · rw [if_neg hs, HandleHTTPError_lt_400 s (by omega)]
  | some q =>
      have hq : q.code = "" := hp q rfl
      by_cases hs : 400 ≤ s
      · simp [hs, hq]
      · rw [if_neg hs, HandleHTTPError_lt_400 s (by omega)]

/-- Witness for `makeRequestClassify_fallback_table` at `s = 402`,
`p = none`. -/
theorem makeRequestClassify_fallback_table_witness :
    makeRequestClassify 402 none = HandleHTTPError 402 ∧
    HandleHTTPError 401 = some (.authenticationErr "unauthorized access") ∧
    HandleHTTPError 403 = some (.authenticationErr "forbidden access") ∧
    HandleHTTPError 404 = some (.notFoundErr "resource" "unknown") ∧
    HandleHTTPError 429 = some (.rateLimitErr 60) ∧
    HandleHTTPError 400 = some (.dokanErr "bad_request" "bad request" 400) ∧
    HandleHTTPError 500 = some (.dokanErr "internal_error" "internal server error" 500) ∧
    (∀ t : Int, 400 ≤ t → t ≠ 401 → t ≠ 403 → t ≠ 404 → t ≠ 429 → t ≠ 400 → t ≠ 500 →
      HandleHTTPError t
        = some (.dokanErr "http_error" ("HTTP " ++ toString t ++ " error") t)) ∧
    (∀ t : Int, t < 400 → HandleHTTPError t = none) :=
  makeRequestClassify_fallback_table 402 none (fun _ h => Option.noConfusion h)

/-- C4: for every response with status code ≥ 400 whose body parses as a
structured error payload with a non-empty code, `utils.MakeRequest` returns a
`DokanError` carrying that payload's code and message with the original
status code (the fallback table of `HandleHTTPError` plays no part in the
result), and the transport was reached. -/
theorem MakeRequest_structured_payload_wins (s : Int) (p : DokanPayload)
    (hs : 400 ≤ s) (hc : p.code ≠ "") :
    (MakeRequestModel none (.response s (some p))).error
        = some (.dokanErr p.code p.message s) ∧
    (MakeRequestModel none (.response s (some p))).networkCalled = true := by
  unfold MakeRequestModel makeRequestClassify
  simp [hs, hc]

/-- Witness for `MakeRequest_structured_payload_wins` at status 404 with
payload code "dokan_rest_no_route": the structured payload wins over the
fallback `NotFoundError` entry for 404. -/
theorem MakeRequest_structured_payload_wins_witness :
    (MakeRequestModel none
        (.response 404 (some ⟨"dokan_rest_no_route", "No route"⟩))).error
      = some (.dokanErr "dokan_rest_no_route" "No route" 404) ∧
    (MakeRequestModel none
        (.response 404 (some ⟨"dokan_rest_no_route", "No route"⟩))).networkCalled
      = true :=
  MakeRequest_structured_payload_wins 404 ⟨"dokan_rest_no_route", "No route"⟩
    (by omega) (by decide)

/-- C1 counterexample: with the client's `retryCount = 3` (the `MaxRetries`
field) and a unit of work that always fails with a network error, the unit of
work is invoked 4 times, not 3: the Go loop `attempt <= MaxRetries` runs
`MaxRetries + 1` iterations. -/
theorem WithRetry_three_attempts_counterexample :
    (WithRetry (fun _ => false) (.goErr "context deadline exceeded")
        ⟨3, 1, 30, 2⟩ (fun _ => some (.networkErr (.goErr "connection refused")))).attempts
      = 4 ∧
    ¬ (WithRetry (fun _ => false) (.goErr "context deadline exceeded")
        ⟨3, 1, 30, 2⟩ (fun _ => some (.networkErr (.goErr "connection refused")))).attempts
      = 3 := by
  constructor
  · rfl
  · intro h
    rw [show (WithRetry (fun _ => false) (.goErr "context deadline exceeded")
        ⟨3, 1, 30, 2⟩ (fun _ => some (.networkErr (.goErr "connection refused")))).attempts
      = 4 from rfl] at h
    omega

/-- C1 (amended): for a retry configuration with `MaxRetries = N` (the
client's `retryCount`) and a unit of work failing with a retryable error on
every invocation, `utils.WithRetry` invokes the unit of work exactly `N + 1`
times — the first attempt plus `N` retries — and returns the error of the
final invocation; with `N = 0` exactly one attempt occurs. -/
theorem WithRetry_attempt_count (cfg : RetryConfig) (cd : Nat → Bool) (ce : GoErr)
    (fn : Nat → Option GoErr) (errAt : Nat → GoErr)
    (hcd : ∀ k, cd k = false)
    (hfn : ∀ k, fn k = some (errAt k))
    (hr : ∀ k, nonRetryable (errAt k) = false) :
    (WithRetry cd ce cfg fn).attempts = cfg.maxRetries + 1 ∧
    (WithRetry cd ce cfg fn).result = some (errAt cfg.maxRetries) := by
  rw [WithRetry_exhaust cd ce cfg fn errAt hcd hfn hr]
  exact ⟨rfl, rfl⟩

/-- Witness for `WithRetry_attempt_count`: `MaxRetries = 5` and a unit of
work failing with `DokanError(status 429)` on every invocation (429 is
retryable despite being 4xx): 6 invocations, the last error returned. -/
theorem WithRetry_attempt_count_witness :
    (WithRetry (fun _ => false) (.goErr "context deadline exceeded") ⟨5, 1, 30, 2⟩
        (fun _ => some (.dokanErr "rate_limited" "too many requests" 429))).attempts
      = 5 + 1 ∧
    (WithRetry (fun _ => false) (.goErr "context deadline exceeded") ⟨5, 1, 30, 2⟩
        (fun _ => some (.dokanErr "rate_limited" "too many requests" 429))).result
      = some (.dokanErr "rate_limited" "too many requests" 429) :=
  WithRetry_attempt_count ⟨5, 1, 30, 2⟩ (fun _ => false)
    (.goErr "context deadline exceeded")
    (fun _ => some (.dokanErr "rate_limited" "too many requests" 429))
    (fun _ => .dokanErr "rate_limited" "too many requests" 429)
    (fun _ => rfl) (fun _ => rfl) (fun _ => rfl)

/-- C2 counterexample: a unit of work always failing with the fallback 404
kind `NotFoundError("resource", "unknown")` (which is not a `*DokanError`, so
the status check in `WithRetry` never fires) is retried until attempts are
exhausted — 3 invocations with `MaxRetries = 2` — instead of stopping
immediately after 1 attempt as the claim states. -/
theorem WithRetry_notFound_retried_counterexample :
    (WithRetry (fun _ => false) (.goErr "context deadline exceeded") ⟨2, 1, 30, 2⟩
        (fun _ => some (.notFoundErr "resource" "unknown"))).attempts = 3 ∧
    ¬ (WithRetry (fun _ => false) (.goErr "context deadline exceeded") ⟨2, 1, 30, 2⟩
        (fun _ => some (.notFoundErr "resource" "unknown"))).attempts = 1 := by
  constructor
  · rfl
  · intro h
    rw [show (WithRetry (fun _ => false) (.goErr "context deadline exceeded") ⟨2, 1, 30, 2⟩
        (fun _ => some (.notFoundErr "resource" "unknown"))).attempts = 3 from rfl] at h
    omega

/-- C2 (amended): `utils.WithRetry` stops immediately — returning the error
after a single further-attempt-free invocation — exactly on `*DokanError`
values with status in [400, 500) other than 429; every other first-attempt
error is retried when retries remain and cancellation is quiet.  In
particular network failures, DokanErrors with 5xx / 429 / out-of-range
status, and also the fallback `AuthenticationError` (401/403),
`NotFoundError` (404) and `RateLimitError` (429) kinds — none of which are
DokanErrors — are all retryable. -/
theorem WithRetry_retry_policy (cfg : RetryConfig) (cd : Nat → Bool) (ce : GoErr)
    (fn : Nat → Option GoErr) (e : GoErr) (h0 : fn 0 = some e) :
    (nonRetryable e = true → WithRetry cd ce cfg fn = ⟨1, [], some e⟩) ∧
    (nonRetryable e = false → (∀ k, cd k = false) → 1 ≤ cfg.maxRetries →
      2 ≤ (WithRetry cd ce cfg fn).attempts) ∧
    (∀ c m s, nonRetryable (.dokanErr c m s)
        = (decide (400 ≤ s) && decide (s < 500) && decide (s ≠ 429))) ∧
    (∀ cause, nonRetryable (.networkErr cause) = false) ∧
    (∀ m, nonRetryable (.authenticationErr m) = false) ∧
    (∀ r i, nonRetryable (.notFoundErr r i) = false) ∧
    (∀ ra, nonRetryable (.rateLimitErr ra) = false) ∧
    (∀ e2, IsDokanError e2 = false → nonRetryable e2 = false) := by
  refine ⟨?_, ?_, fun c m s => rfl, fun _ => rfl, fun _ => rfl, fun _ _ => rfl,
    fun _ => rfl, ?_⟩
  · intro hnr
    unfold WithRetry
    simp [withRetryLoop, h0, hnr]
  · intro hnr hcd hm
    unfold WithRetry
    have hstep : withRetryLoop cd ce cfg fn (cfg.maxRetries + 1) 0 [] none =
        withRetryLoop cd ce cfg fn cfg.maxRetries 1 [] (some e) := by
      simp [withRetryLoop, h0, hnr]
    rw [hstep]
    exact withRetryLoop_attempts_lower cd ce cfg fn hcd cfg.maxRetries 1 [] (some e) hm
  · intro e2 hd
    cases e2 <;> simp_all [IsDokanError, nonRetryable]

/-- Witness for `WithRetry_retry_policy`: the fallback 401 kind
`AuthenticationError("unauthorized access")` as the first-attempt error with
`MaxRetries = 1`. -/
theorem WithRetry_retry_policy_witness :
    (nonRetryable (.authenticationErr "unauthorized access") = true →
      WithRetry (fun _ => false) (.goErr "context deadline exceeded") ⟨1, 1, 30, 2⟩
        (fun _ => some (.authenticationErr "unauthorized access"))
      = ⟨1, [], some (.authenticationErr "unauthorized access")⟩) ∧
    (nonRetryable (.authenticationErr "unauthorized access") = false →
      (∀ k, (fun _ : Nat => false) k = false) →
      1 ≤ (⟨1, 1, 30, 2⟩ : RetryConfig).maxRetries →
      2 ≤ (WithRetry (fun _ => false) (.goErr "context deadline exceeded") ⟨1, 1, 30, 2⟩
        (fun _ => some (.authenticationErr "unauthorized access"))).attempts) ∧
    (∀ c m s, nonRetryable (.dokanErr c m s)
        = (decide (400 ≤ s) && decide (s < 500) && decide (s ≠ 429))) ∧
    (∀ cause, nonRetryable (.networkErr cause) = false) ∧
    (∀ m, nonRetryable (.authenticationErr m) = false) ∧
    (∀ r i, nonRetryable (.notFoundErr r i) = false) ∧
    (∀ ra, nonRetryable (.rateLimitErr ra) = false) ∧
    (∀ e2, IsDokanError e2 = false → nonRetryable e2 = false) :=
  WithRetry_retry_policy ⟨1, 1, 30, 2⟩ (fun _ => false)
    (.goErr "context deadline exceeded")
    (fun _ => some (.authenticationErr "unauthorized access"))
    (.authenticationErr "unauthorized access") rfl

/-- Helper: the capped delay of the source equals the min of the claim's
formula. -/
theorem retryDelay_eq_min (cfg : RetryConfig) (n : Nat) :
    retryDelay cfg n
      = min (cfg.baseDelay * (n : ℚ) * cfg.multiplier) cfg.maxDelay := by
  unfold retryDelay
  rcases le_or_lt (cfg.baseDelay * (n : ℚ) * cfg.multiplier) cfg.maxDelay with h | h
  · rw [if_neg (not_lt.mpr h), min_eq_left h]
  · rw [if_pos h, min_eq_right (le_of_lt h)]

/-- C5: for every retry configuration, the delay completed before retry
attempt `n` (the first retry being `n = 1`) is exactly
`min(baseDelay * n * multiplier, maxDelay)`: a run whose unit of work fails
retryably on every invocation completes exactly the delays for
`n = 1 .. MaxRetries`, in order; and no delay precedes the first attempt — a
unit of work succeeding at its first invocation completes with an empty delay
trace. -/
theorem WithRetry_backoff_formula (cfg : RetryConfig) (cd : Nat → Bool) (ce : GoErr)
    (fn fn2 : Nat → Option GoErr) (errAt : Nat → GoErr)
    (hcd : ∀ k, cd k = false) (hfn : ∀ k, fn k = some (errAt k))
    (hr : ∀ k, nonRetryable (errAt k) = false) (hfn2 : fn2 0 = none) :
    (∀ n : Nat, retryDelay cfg n
        = min (cfg.baseDelay * (n : ℚ) * cfg.multiplier) cfg.maxDelay) ∧
    (WithRetry cd ce cfg fn).delays
        = (List.range cfg.maxRetries).map
            (fun i => min (cfg.baseDelay * ((i + 1 : Nat) : ℚ) * cfg.multiplier)
              cfg.maxDelay) ∧
    (WithRetry cd ce cfg fn2).delays = [] := by
  refine ⟨retryDelay_eq_min cfg, ?_, ?_⟩
  · rw [WithRetry_exhaust cd ce cfg fn errAt hcd hfn hr]
    apply List.map_congr_left
    intro i _
    exact retryDelay_eq_min cfg (i + 1)
  · unfold WithRetry
    simp [withRetryLoop, hfn2]

/-- Witness for `WithRetry_backoff_formula`: base delay 4, max delay 6,
multiplier 2, three retries (the cap is reached from the first retry on), and
a first-attempt success. -/
theorem WithRetry_backoff_formula_witness :
    (∀ n : Nat, retryDelay ⟨3, 4, 6, 2⟩ n
        = min ((⟨3, 4, 6, 2⟩ : RetryConfig).baseDelay * (n : ℚ)
            * (⟨3, 4, 6, 2⟩ : RetryConfig).multiplier)
            (⟨3, 4, 6, 2⟩ : RetryConfig).maxDelay) ∧
    (WithRetry (fun _ => false) (.goErr "context deadline exceeded") ⟨3, 4, 6, 2⟩
        (fun _ => some (.networkErr (.goErr "connection refused")))).delays
        = (List.range 3).map
            (fun i => min ((⟨3, 4, 6, 2⟩ : RetryConfig).baseDelay * ((i + 1 : Nat) : ℚ)
                * (⟨3, 4, 6, 2⟩ : RetryConfig).multiplier)
              (⟨3, 4, 6, 2⟩ : RetryConfig).maxDelay) ∧
    (WithRetry (fun _ => false) (.goErr "context deadline exceeded") ⟨3, 4, 6, 2⟩
        (fun _ => none)).delays = [] :=
  WithRetry_backoff_formula ⟨3, 4, 6, 2⟩ (fun _ => false)
    (.goErr "context deadline exceeded")
    (fun _ => some (.networkErr (.goErr "connection refused"))) (fun _ => none)
    (fun _ => .networkErr (.goErr "connection refused"))
    (fun _ => rfl) (fun _ => rfl) (fun _ => rfl) rfl

/-- C10: an already-fired (or firing during a wait) cancellation signal makes
`utils.WithRetry` return `ctx.Err()` immediately: if the unit of work fails
retryably up to retry attempt `n ≤ MaxRetries`, cancellation is quiet before
the wait preceding attempt `n` and fires at that wait, the run returns the
cancellation error with only the `n - 1` earlier waits completed — the
interrupted wait contributes no delay.  With `n = 1` (a deadline already
expired when the first backoff starts) no backoff delay at all elapses. -/
theorem WithRetry_cancellation (cfg : RetryConfig) (cd : Nat → Bool) (ce : GoErr)
    (fn : Nat → Option GoErr) (errAt : Nat → GoErr) (n : Nat)
    (hn : 1 ≤ n) (hmax : n ≤ cfg.maxRetries)
    (hcdn : cd n = true)
    (hquiet : ∀ k, 1 ≤ k → k < n → cd k = false)
    (hfn : ∀ k, k < n → fn k = some (errAt k))
    (hr : ∀ k, k < n → nonRetryable (errAt k) = false) :
    WithRetry cd ce cfg fn
      = ⟨n, (List.range (n - 1)).map (fun i => retryDelay cfg (1 + i)), some ce⟩ := by
  unfold WithRetry
  have hstep : withRetryLoop cd ce cfg fn (cfg.maxRetries + 1) 0 [] none =
      withRetryLoop cd ce cfg fn cfg.maxRetries 1 [] (some (errAt 0)) := by
    simp [withRetryLoop, hfn 0 (by omega), hr 0 (by omega)]
  rw [hstep]
  rw [withRetryLoop_reach_cancel cd ce cfg fn errAt (n - 1) cfg.maxRetries 1 le_rfl
    (by omega)
    (by
      have h1n : 1 + (n - 1) = n := by omega
      rw [h1n]; exact hcdn)
    (fun k hk1 hk2 => hquiet k hk1 (by omega))
    (fun k hk1 hk2 => hfn k (by omega))
    (fun k hk1 hk2 => hr k (by omega)) [] (some (errAt 0))]
  simp only [RetryTrace.mk.injEq, List.nil_append, and_true, true_and]
  omega

/-- Witness for `WithRetry_cancellation`: cancellation already fired before
the first backoff wait (`n = 1`): one attempt, no completed delay, the
cancellation error returned. -/
theorem WithRetry_cancellation_witness :
    WithRetry (fun _ => true) (.goErr "context deadline exceeded") ⟨3, 1, 30, 2⟩
        (fun _ => some (.networkErr (.goErr "context deadline exceeded")))
      = ⟨1, (List.range (1 - 1)).map (fun i => retryDelay ⟨3, 1, 30, 2⟩ (1 + i)),
          some (.goErr "context deadline exceeded")⟩ :=
  WithRetry_cancellation ⟨3, 1, 30, 2⟩ (fun _ => true)
    (.goErr "context deadline exceeded")
    (fun _ => some (.networkErr (.goErr "context deadline exceeded")))
    (fun _ => .networkErr (.goErr "context deadline exceeded")) 1
    le_rfl (by decide) rfl (fun k hk1 hk2 => by omega)
    (fun k _ => rfl) (fun k _ => rfl)

/-- C6: the query-string serializer examines only the top-level fields of the
struct it is given and contributes nothing for a field without its own `url`
tag — in particular for an embedded anonymous struct field such as
`ListParams` inside `ProductListParams` / `OrderListParams` /
`StoreListParams`: whatever url-tagged fields the embedded value holds, the
output equals the output without that field, and a `ProductListParams` whose
only set values live in the embedded `ListParams` serializes to no query
parameters at all. -/
theorem StructToURLValues_skips_untagged (pre post : List (String × GoFieldValue))
    (v : GoFieldValue) :
    StructToURLValues (pre ++ ("", v) :: post) = StructToURLValues (pre ++ post) ∧
    (∀ page perPage : Int, ∀ search orderBy order : String,
      StructToURLValues (productListParamsFields page perPage search orderBy order)
        = .ok []) := by
  constructor
  · induction pre with
    | nil => simp [StructToURLValues]
    | cons hd tl ih =>
        obtain ⟨t, w⟩ := hd
        have ih2 : StructToURLValues (tl.append (("", v) :: post))
            = StructToURLValues (tl.append post) := ih
        simp only [List.cons_append, StructToURLValues, ih2]
  · intro page perPage search orderBy order
    rfl

/-- C9: a field whose `url` tag carries `omitempty` and whose value is the
zero value of its type (empty string, zero integer, false, nil pointer,
empty collection) produces no query parameter; and an int-slice field
`[15, 23]` flattens to the comma-joined string "15,23". -/
theorem StructToURLValues_omitempty_zero (tag : String) (v : GoFieldValue)
    (rest : List (String × GoFieldValue))
    (hne : tag ≠ "") (hdash : tag ≠ "-")
    (homit : ((splitComma tag).drop 1).contains "omitempty" = true)
    (hempty : isEmptyValue v = true) :
    StructToURLValues ((tag, v) :: rest) = StructToURLValues rest ∧
    isEmptyValue (.stringV "") = true ∧
    isEmptyValue (.intV 0) = true ∧
    isEmptyValue (.boolV false) = true ∧
    isEmptyValue .ptrNil = true ∧
    isEmptyValue (.intSlice []) = true ∧
    isEmptyValue (.stringSlice []) = true ∧
    fieldToString (.intSlice [15, 23]) = .ok "15,23" ∧
    StructToURLValues [("include,omitempty", .intSlice [15, 23])]
      = .ok [("include", "15,23")] := by
  refine ⟨?_, rfl, rfl, rfl, rfl, rfl, rfl, rfl, rfl⟩
  have hA : ¬ ((decide (tag = "") || decide (tag = "-")) = true) := by
    simp [hne, hdash]
  have hB : (((splitComma tag).drop 1).contains "omitempty" && isEmptyValue v) = true := by
    rw [homit, hempty]
    rfl
  simp only [StructToURLValues]
  rw [if_neg hA, if_pos hB]

/-- Witness for `StructToURLValues_omitempty_zero`: the
`per_page,omitempty`-tagged field of `ListParams` at its zero value 0. -/
theorem StructToURLValues_omitempty_zero_witness :
    StructToURLValues [("per_page,omitempty", .intV 0)] = StructToURLValues [] ∧
    isEmptyValue (.stringV "") = true ∧
    isEmptyValue (.intV 0) = true ∧
    isEmptyValue (.boolV false) = true ∧
    isEmptyValue .ptrNil = true ∧
    isEmptyValue (.intSlice []) = true ∧
    isEmptyValue (.stringSlice []) = true ∧
    fieldToString (.intSlice [15, 23]) = .ok "15,23" ∧
    StructToURLValues [("include,omitempty", .intSlice [15, 23])]
      = .ok [("include", "15,23")] :=
  StructToURLValues_omitempty_zero "per_page,omitempty" (.intV 0) []
    (by decide) (by decide) rfl rfl

/-- C7 counterexample: with a basic-auth credential having an empty username,
`Authenticate` fails and the attempt performs no network I/O, but the failure
is wrapped inside a NetworkError — not surfaced as an authentication error —
and `WithRetry` retries it: 3 invocations with `MaxRetries = 2` instead of
the claimed single never-retried attempt. -/
theorem auth_failure_retried_counterexample :
    (MakeRequestModel (basicAuthAuthenticate "" "secret")
        (.transportFailure "unreachable")).networkCalled = false ∧
    (MakeRequestModel (basicAuthAuthenticate "" "secret")
        (.transportFailure "unreachable")).error
      = some (.networkErr (.wrapped "authentication failed"
          (.goErr "username and password are required for basic auth"))) ∧
    (WithRetry (fun _ => false) (.goErr "context deadline exceeded") ⟨2, 1, 30, 2⟩
        (fun _ => (MakeRequestModel (basicAuthAuthenticate "" "secret")
          (.transportFailure "unreachable")).error)).attempts = 3 ∧
    ¬ (WithRetry (fun _ => false) (.goErr "context deadline exceeded") ⟨2, 1, 30, 2⟩
        (fun _ => (MakeRequestModel (basicAuthAuthenticate "" "secret")
          (.transportFailure "unreachable")).error)).attempts = 1 := by
  refine ⟨rfl, rfl, rfl, ?_⟩
  intro h
  rw [show (WithRetry (fun _ => false) (.goErr "context deadline exceeded") ⟨2, 1, 30, 2⟩
        (fun _ => (MakeRequestModel (basicAuthAuthenticate "" "secret")
          (.transportFailure "unreachable")).error)).attempts = 3 from rfl] at h
  omega

/-- C7 (amended): when the Authenticator fails to attach credentials (basic
credentials with an empty username or password; an empty bearer token), the
attempt fails with no network I/O performed for it; the failure is however
surfaced wrapped inside a NetworkError (not as an authentication error
value), which `WithRetry` treats as transient: the unit of work is retried
until attempts are exhausted. -/
theorem auth_failure_no_network_retried (cfg : RetryConfig) (cd : Nat → Bool)
    (ce e : GoErr) (net : NetOutcome) (u p : String)
    (hcd : ∀ k, cd k = false) (hup : u = "" ∨ p = "") :
    basicAuthAuthenticate u p
      = some (.goErr "username and password are required for basic auth") ∧
    (∀ (expOpt : Option Int) (now : Int),
      jwtAuthenticateNoRefresh "" expOpt now
        = some (.goErr "JWT token is required")) ∧
    (MakeRequestModel (some e) net).networkCalled = false ∧
    (MakeRequestModel (some e) net).error
      = some (.networkErr (.wrapped "authentication failed" e)) ∧
    (WithRetry cd ce cfg (fun _ => (MakeRequestModel (some e) net).error)).attempts
      = cfg.maxRetries + 1 ∧
    (WithRetry cd ce cfg (fun _ => (MakeRequestModel (some e) net).error)).result
      = some (.networkErr (.wrapped "authentication failed" e)) := by
  have hex := WithRetry_exhaust cd ce cfg
    (fun _ => (MakeRequestModel (some e) net).error)
    (fun _ => .networkErr (.wrapped "authentication failed" e)) hcd
    (fun _ => rfl) (fun _ => rfl)
  refine ⟨?_, fun expOpt now => rfl, rfl, rfl, ?_, ?_⟩
  · unfold basicAuthAuthenticate
    rcases hup with h | h <;> simp [h]
  · rw [hex]
  · rw [hex]

/-- Witness for `auth_failure_no_network_retried`: empty username,
`MaxRetries = 2`. -/
theorem auth_failure_no_network_retried_witness :
    basicAuthAuthenticate "" "secret"
      = some (.goErr "username and password are required for basic auth") ∧
    (∀ (expOpt : Option Int) (now : Int),
      jwtAuthenticateNoRefresh "" expOpt now
        = some (.goErr "JWT token is required")) ∧
    (MakeRequestModel
        (some (.goErr "username and password are required for basic auth"))
        (.transportFailure "unreachable")).networkCalled = false ∧
    (MakeRequestModel
        (some (.goErr "username and password are required for basic auth"))
        (.transportFailure "unreachable")).error
      = some (.networkErr (.wrapped "authentication failed"
          (.goErr "username and password are required for basic auth"))) ∧
    (WithRetry (fun _ => false) (.goErr "context deadline exceeded") ⟨2, 1, 30, 2⟩
        (fun _ => (MakeRequestModel
          (some (.goErr "username and password are required for basic auth"))
          (.transportFailure "unreachable")).error)).attempts
      = (⟨2, 1, 30, 2⟩ : RetryConfig).maxRetries + 1 ∧
    (WithRetry (fun _ => false) (.goErr "context deadline exceeded") ⟨2, 1, 30, 2⟩
        (fun _ => (MakeRequestModel
          (some (.goErr "username and password are required for basic auth"))
          (.transportFailure "unreachable")).error)).result
      = some (.networkErr (.wrapped "authentication failed"
          (.goErr "username and password are required for basic auth"))) :=
  auth_failure_no_network_retried ⟨2, 1, 30, 2⟩ (fun _ => false)
    (.goErr "context deadline exceeded")
    (.goErr "username and password are required for basic auth")
    (.transportFailure "unreachable") "" "secret"
    (fun _ => rfl) (Or.inl rfl)

/-- C8: bearer-token validity (`JWTAuth.IsValid`): for a non-empty token it
is true when no expiry is set; with an expiry set it is true exactly when the
current time plus the 5-minute safety margin is still strictly before the
expiry — false for a token expiring in 4 minutes, true for one expiring in 6
minutes — and it is false whenever the token string is empty. -/
theorem JWTAuth_IsValid_margin (token : String) (now exp : Int) (h : token ≠ "") :
    jwtIsValid token none now = true ∧
    (jwtIsValid token (some exp) now = true ↔ now + fiveMinutesNs < exp) ∧
    jwtIsValid token (some (now + 4 * 60 * 1000000000)) now = false ∧
    jwtIsValid token (some (now + 6 * 60 * 1000000000)) now = true ∧
    (∀ e : Option Int, jwtIsValid "" e now = false) := by
  refine ⟨?_, ?_, ?_, ?_, fun e => rfl⟩
  · simp [jwtIsValid, h]
  · simp [jwtIsValid, h]
  · simp only [jwtIsValid, h, if_false, fiveMinutesNs]
    simp only [decide_eq_false_iff_not, not_lt]
    omega
  · simp only [jwtIsValid, h, if_false, fiveMinutesNs]
    simp only [decide_eq_true_eq]
    omega

/-- Witness for `JWTAuth_IsValid_margin`: token "jwt" at time 0 with a
10-minute expiry. -/
theorem JWTAuth_IsValid_margin_witness :
    jwtIsValid "jwt" none 0 = true ∧
    (jwtIsValid "jwt" (some 600000000000) 0 = true ↔ 0 + fiveMinutesNs < 600000000000) ∧
    jwtIsValid "jwt" (some (0 + 4 * 60 * 1000000000)) 0 = false ∧
    jwtIsValid "jwt" (some (0 + 6 * 60 * 1000000000)) 0 = true ∧
    (∀ e : Option Int, jwtIsValid "" e 0 = false) :=
  JWTAuth_IsValid_margin "jwt" 0 600000000000 (by decide)
